import Mathlib

/-!
Shallow embedding of the vid-gen-2 pipeline (`src/streamlit_app.py`): the
six-artifact session state, the three OpenAI gateway calls, and the six
stage "run" actions, together with proofs of the specified properties.
-/

set_option maxRecDepth 4000

namespace VidGen

/-- One transcript/storyboard entry, the shape of the dicts built at
`streamlit_app.py:154` and `streamlit_app.py:180`.  The `prompt` field is
`none` when the dict has no `"prompt"` key (transcription output) and
`some p` when the storyboard stage has added one. -/
structure Entry where
  start : Nat
  «end» : Nat
  text : String
  prompt : Option String
deriving DecidableEq

/-- The six session-state artifacts (`st.session_state`), each `none`
until produced, mirroring `state_defaults` at `streamlit_app.py:26`. -/
structure AppState where
  script_text : Option String
  audio_path : Option String
  timestamps_json : Option (List Entry)
  storyboard_json : Option (List Entry)
  metadata_json : Option String
  video_path : Option String
deriving DecidableEq

/-- `state_defaults`: every artifact starts absent (`streamlit_app.py:26-35`). -/
def state_defaults : AppState :=
  { script_text := none, audio_path := none, timestamps_json := none
    storyboard_json := none, metadata_json := none, video_path := none }

/-- Characters removed by Python `str.strip()` (whitespace set). -/
def isPySpace (c : Char) : Bool :=
  ([0x09, 0x0a, 0x0b, 0x0c, 0x0d, 0x1c, 0x1d, 0x1e, 0x1f, 0x20, 0x85, 0xa0,
    0x1680, 0x2000, 0x2001, 0x2002, 0x2003, 0x2004, 0x2005, 0x2006, 0x2007,
    0x2008, 0x2009, 0x200a, 0x2028, 0x2029, 0x202f, 0x205f, 0x3000] : List Nat).contains c.toNat

/-- Python `str.strip()`: drop leading and trailing whitespace. -/
def pyStrip (s : String) : String :=
  ⟨(s.data.dropWhile isPySpace).rdropWhile isPySpace⟩

/-- Line-boundary characters of Python `str.splitlines()` other than the
two-character boundary `"\r\n"`, which is handled separately. -/
def isLineBreak (c : Char) : Bool :=
  ([0x0a, 0x0b, 0x0c, 0x0d, 0x1c, 0x1d, 0x1e, 0x85, 0x2028, 0x2029] : List Nat).contains c.toNat

/-- Worker for `splitlines`; `acc` holds the current line reversed. -/
def splitlinesAux : List Char → List Char → List String
  | [], acc => if acc.isEmpty then [] else [⟨acc.reverse⟩]
  | '\r' :: '\n' :: cs, acc => ⟨acc.reverse⟩ :: splitlinesAux cs []
  | c :: cs, acc =>
    if isLineBreak c then ⟨acc.reverse⟩ :: splitlinesAux cs []
    else splitlinesAux cs (c :: acc)

/-- Python `str.splitlines()`: split at line boundaries, no trailing empty
line for a trailing boundary, `[]` on the empty string. -/
def splitlines (s : String) : List String :=
  splitlinesAux s.data []

/-- A gateway call made by a stage, recorded so that "no service call is
made" is provable. -/
inductive Call where
  | chat (prompt : String) (system : String)
  | tts (text : String) (voice : String)
  | whisper (audio : List Nat)
deriving DecidableEq

/-- The external OpenAI service: raw (un-stripped) chat completions, raw
audio bytes from TTS, and raw transcripts from Whisper, each of which may
fail with an error message (`ServiceError`). -/
structure Gateway where
  chat : String → String → Except String String
  tts : String → String → Except String (List Nat)
  whisper : List Nat → Except String String

/-- `call_openai_chat` (`streamlit_app.py:50-59`): forward to the chat
completion service and `.strip()` the returned message content. -/
def call_openai_chat (g : Gateway) (prompt : String) (system : String) : Except String String :=
  (g.chat prompt system).map pyStrip

/-- The system prompt of the script stage (`streamlit_app.py:100-102`). -/
def script_system : String :=
  "You are an Emmy‑award‑winning explainer‑video writer. Return a tight, engaging, conversational script.\n\nRespond with pure markdown/plain‑text – no code fences."

/-- The system prompt of the storyboard stage (`streamlit_app.py:179`). -/
def storyboard_system : String :=
  "You are a creative visual prompt generator for DALL‑E 3."

/-- The user prompt of the storyboard stage (`streamlit_app.py:178`). -/
def storyboard_prompt (t : String) : String :=
  "Create an image prompt for a video scene: " ++ t

/-- The system prompt of the metadata stage (`streamlit_app.py:200`). -/
def metadata_system : String :=
  "You are a YouTube strategist – craft a catchy title,\nSEO description (≤200 words) and a DALL‑E prompt for the thumbnail."

/-- The dict comprehension body of `step_transcription`
(`streamlit_app.py:153-156`): line index `i` over all split lines, entry
kept only when the stripped line is non-empty. -/
def segFn (p : Nat × String) : Option Entry :=
  if pyStrip p.2 ≠ "" then
    some { start := p.1 * 5, «end» := (p.1 + 1) * 5, text := pyStrip p.2, prompt := none }
  else none

/-- The segment list built by `step_transcription` from a transcript. -/
def mkSegments (transcript : String) : List Entry :=
  (splitlines transcript).enum.filterMap segFn

/-- `{**seg, "prompt": prompt}` (`streamlit_app.py:180`). -/
def withPrompt (e : Entry) (p : String) : Entry :=
  { e with prompt := some p }

/-- One slide of the assembled video: a fixed-duration clip labelled with
the storyboard entry's prompt (`streamlit_app.py:218-222`). -/
structure Slide where
  label : String
  duration : Nat
deriving DecidableEq

/-- The assembled video value: slides in order, attached audio reference,
and encoding frame rate (`streamlit_app.py:224-227`). -/
structure Video where
  slides : List Slide
  audio : String
  fps : Nat
deriving DecidableEq

/-- `scene.get("prompt", "Scene")` (`streamlit_app.py:222`) with the fixed
`duration_per_slide = 5` (`streamlit_app.py:218`). -/
def slide_of (scene : Entry) : Slide :=
  { label := scene.prompt.getD "Scene", duration := 5 }

/-- The nominal duration of an assembled video: the sum of its slide
durations. -/
def nominal_duration (v : Video) : Nat :=
  (v.slides.map Slide.duration).sum

/-- The fixed external world of one run: the gateway, the byte content
behind each file path, and the temporary paths the OS hands out for the
audio and video files written by the stages. -/
structure Env where
  gw : Gateway
  fs : String → List Nat
  fresh_audio_path : String
  fresh_video_path : String

/-- The stage-specific user inputs: the script-stage prompt text and the
audio-stage voice selection. -/
structure UserInput where
  prompt : String
  voice : String
deriving DecidableEq

/-- The observable outcome of one stage run: the updated session state,
the gateway calls made in order, the surfaced `ServiceError` (if the run
raised), whether the stage refused with its blocking notice, and the video
value rendered by the video stage (if any). -/
structure StepResult where
  state : AppState
  calls : List Call
  error : Option String
  blocked : Bool
  rendered : Option Video

/-- `step_generate_script` run action (`streamlit_app.py:96-104`): the
guard `st.button(...) and prompt` makes an empty prompt a no-op; otherwise
one chat call, whose stripped result overwrites `script_text`. -/
def step_generate_script (env : Env) (inp : UserInput) (s : AppState) : StepResult :=
  if inp.prompt = "" then
    { state := s, calls := [], error := none, blocked := false, rendered := none }
  else
    match call_openai_chat env.gw inp.prompt script_system with
    | .ok txt =>
      { state := { s with script_text := some txt }
        calls := [.chat inp.prompt script_system], error := none
        blocked := false, rendered := none }
    | .error e =>
      { state := s, calls := [.chat inp.prompt script_system], error := some e
        blocked := false, rendered := none }

/-- `step_audio_creation` synthesis path (`streamlit_app.py:118-128`):
blocked while `script_text` is falsy; otherwise one TTS call whose bytes
are written to a fresh temp file that overwrites `audio_path`. -/
def step_audio_creation (env : Env) (inp : UserInput) (s : AppState) : StepResult :=
  match s.script_text with
  | none => { state := s, calls := [], error := none, blocked := true, rendered := none }
  | some txt =>
    if txt = "" then
      { state := s, calls := [], error := none, blocked := true, rendered := none }
    else
      match env.gw.tts txt inp.voice with
      | .ok _bytes =>
        { state := { s with audio_path := some env.fresh_audio_path }
          calls := [.tts txt inp.voice], error := none, blocked := false, rendered := none }
      | .error e =>
        { state := s, calls := [.tts txt inp.voice], error := some e
          blocked := false, rendered := none }

/-- `step_audio_creation` upload path (`streamlit_app.py:130-133`): the
uploaded file's temp path overwrites `audio_path`, no gateway call. -/
def upload_audio (path : String) (s : AppState) : AppState :=
  { s with audio_path := some path }

/-- `step_transcription` run action (`streamlit_app.py:145-157`): blocked
while `audio_path` is falsy; otherwise one Whisper call on the file's
bytes, and the enumerated non-blank stripped lines overwrite
`timestamps_json`. -/
def step_transcription (env : Env) (s : AppState) : StepResult :=
  match s.audio_path with
  | none => { state := s, calls := [], error := none, blocked := true, rendered := none }
  | some p =>
    if p = "" then
      { state := s, calls := [], error := none, blocked := true, rendered := none }
    else
      match env.gw.whisper (env.fs p) with
      | .ok transcript =>
        { state := { s with timestamps_json := some (mkSegments transcript) }
          calls := [.whisper (env.fs p)], error := none, blocked := false, rendered := none }
      | .error e =>
        { state := s, calls := [.whisper (env.fs p)], error := some e
          blocked := false, rendered := none }

/-- The per-segment loop of `step_storyboard` (`streamlit_app.py:175-180`):
one chat call per entry in order, stopping at the first failure; on full
success the list of source entries each augmented with its prompt. -/
def storyboard_loop (g : Gateway) : List Entry → List Call × Except String (List Entry)
  | [] => ([], .ok [])
  | seg :: rest =>
    match call_openai_chat g (storyboard_prompt seg.text) storyboard_system with
    | .error e => ([.chat (storyboard_prompt seg.text) storyboard_system], .error e)
    | .ok p =>
      match storyboard_loop g rest with
      | (cs, .error e) => (.chat (storyboard_prompt seg.text) storyboard_system :: cs, .error e)
      | (cs, .ok tail) =>
        (.chat (storyboard_prompt seg.text) storyboard_system :: cs,
         .ok (withPrompt seg p :: tail))

/-- `step_storyboard` run action (`streamlit_app.py:166-181`): blocked
while `timestamps_json` is falsy; otherwise the loop's result overwrites
`storyboard_json` only after every call has succeeded. -/
def step_storyboard (env : Env) (s : AppState) : StepResult :=
  match s.timestamps_json with
  | none => { state := s, calls := [], error := none, blocked := true, rendered := none }
  | some ts =>
    if ts = [] then
      { state := s, calls := [], error := none, blocked := true, rendered := none }
    else
      match storyboard_loop env.gw ts with
      | (cs, .ok sb) =>
        { state := { s with storyboard_json := some sb }
          calls := cs, error := none, blocked := false, rendered := none }
      | (cs, .error e) =>
        { state := s, calls := cs, error := some e, blocked := false, rendered := none }

/-- `step_metadata` run action (`streamlit_app.py:192-201`): blocked while
`script_text` is falsy; otherwise one chat call whose stripped result
overwrites `metadata_json`. -/
def step_metadata (env : Env) (s : AppState) : StepResult :=
  match s.script_text with
  | none => { state := s, calls := [], error := none, blocked := true, rendered := none }
  | some txt =>
    if txt = "" then
      { state := s, calls := [], error := none, blocked := true, rendered := none }
    else
      match call_openai_chat env.gw txt metadata_system with
      | .ok m =>
        { state := { s with metadata_json := some m }
          calls := [.chat txt metadata_system], error := none, blocked := false, rendered := none }
      | .error e =>
        { state := s, calls := [.chat txt metadata_system], error := some e
          blocked := false, rendered := none }

/-- `step_video` run action (`streamlit_app.py:211-228`): blocked unless
both `storyboard_json` and `audio_path` are truthy; otherwise one
5-second slide per storyboard entry in order, labelled
`scene.get("prompt", "Scene")`, concatenated, with the audio attached and
encoded at 24 fps into a fresh temp path that overwrites `video_path`. -/
def step_video (env : Env) (s : AppState) : StepResult :=
  match s.storyboard_json, s.audio_path with
  | some sb, some p =>
    if sb = [] ∨ p = "" then
      { state := s, calls := [], error := none, blocked := true, rendered := none }
    else
      { state := { s with video_path := some env.fresh_video_path }
        calls := [], error := none, blocked := false
        rendered := some { slides := sb.map slide_of, audio := p, fps := 24 } }
  | _, _ => { state := s, calls := [], error := none, blocked := true, rendered := none }

/-- The six pipeline stages (`pages`, `streamlit_app.py:236-243`). -/
inductive Stage where
  | script | audio | transcription | storyboard | metadata | video
deriving DecidableEq

/-- Dispatch one stage's run action (`streamlit_app.py:244-245`). -/
def runStage : Stage → Env → UserInput → AppState → StepResult
  | .script, env, inp, s => step_generate_script env inp s
  | .audio, env, inp, s => step_audio_creation env inp s
  | .transcription, env, _, s => step_transcription env s
  | .storyboard, env, _, s => step_storyboard env s
  | .metadata, env, _, s => step_metadata env s
  | .video, env, _, s => step_video env s

/-- The five artifacts that are NOT a given stage's own output are equal
in two states (statement helper for the frame property). -/
def othersUnchanged : Stage → AppState → AppState → Prop
  | .script, s, s2 => s2.audio_path = s.audio_path ∧ s2.timestamps_json = s.timestamps_json ∧
      s2.storyboard_json = s.storyboard_json ∧ s2.metadata_json = s.metadata_json ∧
      s2.video_path = s.video_path
  | .audio, s, s2 => s2.script_text = s.script_text ∧ s2.timestamps_json = s.timestamps_json ∧
      s2.storyboard_json = s.storyboard_json ∧ s2.metadata_json = s.metadata_json ∧
      s2.video_path = s.video_path
  | .transcription, s, s2 => s2.script_text = s.script_text ∧ s2.audio_path = s.audio_path ∧
      s2.storyboard_json = s.storyboard_json ∧ s2.metadata_json = s.metadata_json ∧
      s2.video_path = s.video_path
  | .storyboard, s, s2 => s2.script_text = s.script_text ∧ s2.audio_path = s.audio_path ∧
      s2.timestamps_json = s.timestamps_json ∧ s2.metadata_json = s.metadata_json ∧
      s2.video_path = s.video_path
  | .metadata, s, s2 => s2.script_text = s.script_text ∧ s2.audio_path = s.audio_path ∧
      s2.timestamps_json = s.timestamps_json ∧ s2.storyboard_json = s.storyboard_json ∧
      s2.video_path = s.video_path
  | .video, s, s2 => s2.script_text = s.script_text ∧ s2.audio_path = s.audio_path ∧
      s2.timestamps_json = s.timestamps_json ∧ s2.storyboard_json = s.storyboard_json ∧
      s2.metadata_json = s.metadata_json

/-- A gateway on which every call fails, for exercising the error paths. -/
def gw_fail : Gateway :=
  { chat := fun _ _ => .error "boom", tts := fun _ _ => .error "boom"
    whisper := fun _ => .error "boom" }

/-- A gateway on which every call succeeds with a fixed value. -/
def gw_ok : Gateway :=
  { chat := fun _ _ => .ok " a prompt ", tts := fun _ _ => .ok [0]
    whisper := fun _ => .ok "hello\nworld" }

/-- An environment whose gateway always fails. -/
def env_fail : Env :=
  { gw := gw_fail, fs := fun _ => [], fresh_audio_path := "audio.wav"
    fresh_video_path := "video.mp4" }

/-- An environment whose gateway always succeeds. -/
def env_ok : Env :=
  { gw := gw_ok, fs := fun _ => [], fresh_audio_path := "audio.wav"
    fresh_video_path := "video.mp4" }

/-- A fixed user input. -/
def inp0 : UserInput := { prompt := "Why is the sky blue?", voice := "alloy" }

/-- A sample transcript segment entry. -/
def e0 : Entry := { start := 0, «end» := 5, text := "Hello there", prompt := none }

/-- A state holding one transcript segment. -/
def s_ts : AppState := { state_defaults with timestamps_json := some [e0] }

/-- A sample storyboard entry carrying a prompt. -/
def e1 : Entry := { start := 0, «end» := 5, text := "Hello there", prompt := some "a city" }

/-- A sample storyboard entry lacking a prompt key. -/
def e2 : Entry := { start := 5, «end» := 10, text := "Welcome back", prompt := none }

/-- A state ready for video assembly, one entry of which has no prompt. -/
def s_vid : AppState :=
  { state_defaults with storyboard_json := some [e1, e2], audio_path := some "a.wav" }

/-- Dropping leading whitespace again after a full strip changes nothing. -/
theorem dropWhile_strip_data (l : List Char) :
    ((l.dropWhile isPySpace).rdropWhile isPySpace).dropWhile isPySpace =
      (l.dropWhile isPySpace).rdropWhile isPySpace := by
  rw [List.dropWhile_eq_self_iff]
  intro hl
  have hpre := List.rdropWhile_prefix isPySpace (l.dropWhile isPySpace)
  have h0 : 0 < (l.dropWhile isPySpace).length := lt_of_lt_of_le hl hpre.length_le
  have hnot := List.dropWhile_get_zero_not isPySpace l h0
  have hg : ((l.dropWhile isPySpace).rdropWhile isPySpace).get ⟨0, hl⟩ =
      (l.dropWhile isPySpace).get ⟨0, h0⟩ := by
    simpa [List.get_eq_getElem] using hpre.getElem hl
  rw [hg]
  exact hnot

/-- Python `strip` is idempotent. -/
theorem pyStrip_idem (s : String) : pyStrip (pyStrip s) = pyStrip s := by
  show (⟨((((s.data.dropWhile isPySpace).rdropWhile isPySpace).dropWhile
      isPySpace).rdropWhile isPySpace)⟩ : String) = _
  rw [dropWhile_strip_data, List.rdropWhile_idempotent]
  rfl

/-- Every entry produced by the transcription comprehension from line
index `n` on has a 5-wide window at a multiple of 5 no earlier than
`5 * n`, stripped non-empty text, and no prompt key. -/
theorem mem_filterMap_segFn (ls : List String) :
    ∀ (n : Nat) (e : Entry), e ∈ (List.enumFrom n ls).filterMap segFn →
      e.«end» = e.start + 5 ∧ e.start % 5 = 0 ∧ 5 * n ≤ e.start ∧
      pyStrip e.text = e.text ∧ e.text ≠ "" ∧ e.prompt = none := by
  induction ls with
  | nil => intro n e h; simp [List.enumFrom] at h
  | cons a ls ih =>
    intro n e h
    rw [show List.enumFrom n (a :: ls) = (n, a) :: List.enumFrom (n + 1) ls from rfl,
      List.filterMap_cons] at h
    by_cases ha : pyStrip a = ""
    · rw [show segFn (n, a) = none from by simp [segFn, ha]] at h
      have := ih (n + 1) e h
      exact ⟨this.1, this.2.1, by omega, this.2.2.2⟩
    · rw [show segFn (n, a) =
          some { start := n * 5, «end» := (n + 1) * 5, text := pyStrip a, prompt := none }
        from by simp [segFn, ha]] at h
      rcases List.mem_cons.mp h with he | he
      · subst he
        refine ⟨?_, ?_, ?_, pyStrip_idem a, ha, rfl⟩
        · show (n + 1) * 5 = n * 5 + 5
          omega
        · show n * 5 % 5 = 0
          omega
        · show 5 * n ≤ n * 5
          omega
      · have := ih (n + 1) e he
        exact ⟨this.1, this.2.1, by omega, this.2.2.2⟩

/-- The windows produced by the transcription comprehension are
non-overlapping and in order. -/
theorem chain'_filterMap_segFn (ls : List String) :
    ∀ n : Nat,
      List.Chain' (fun a b => a.«end» ≤ b.start) ((List.enumFrom n ls).filterMap segFn) := by
  induction ls with
  | nil => intro n; simp [List.enumFrom]
  | cons a ls ih =>
    intro n
    rw [show List.enumFrom n (a :: ls) = (n, a) :: List.enumFrom (n + 1) ls from rfl,
      List.filterMap_cons]
    cases hseg : segFn (n, a) with
    | none => exact ih (n + 1)
    | some b =>
      have hb : b.«end» = (n + 1) * 5 := by
        unfold segFn at hseg
        split at hseg
        · cases hseg; rfl
        · cases hseg
      rw [List.chain'_cons']
      refine ⟨?_, ih (n + 1)⟩
      intro y hy
      have hmem := List.mem_of_mem_head? hy
      have hge := (mem_filterMap_segFn ls (n + 1) y hmem).2.2.1
      omega

/-- When every chat call for a segment list succeeds, the storyboard loop
succeeds and returns exactly the source entries zipped with prompts. -/
theorem storyboard_loop_ok (g : Gateway) (ts : List Entry)
    (hok : ∀ e ∈ ts, ∃ r, g.chat (storyboard_prompt e.text) storyboard_system = Except.ok r) :
    ∃ ps : List String, ps.length = ts.length ∧
      (storyboard_loop g ts).2 = Except.ok (List.zipWith withPrompt ts ps) := by
  induction ts with
  | nil => exact ⟨[], rfl, rfl⟩
  | cons seg rest ih =>
    obtain ⟨r, hr⟩ := hok seg (List.mem_cons_self _ _)
    obtain ⟨ps, hlen, h2⟩ := ih (fun e he => hok e (List.mem_cons_of_mem _ he))
    refine ⟨pyStrip r :: ps, by simp [hlen], ?_⟩
    unfold storyboard_loop
    rw [show call_openai_chat g (storyboard_prompt seg.text) storyboard_system =
        Except.ok (pyStrip r) from by simp [call_openai_chat, hr, Except.map]]
    rcases hl : storyboard_loop g rest with ⟨cs, r2⟩
    rw [hl] at h2
    simp only at h2
    subst h2
    rfl

/-- Every entry of a zip with `withPrompt` carries a non-null prompt. -/
theorem zipWith_withPrompt_isSome (ts : List Entry) :
    ∀ (ps : List String), ∀ e ∈ List.zipWith withPrompt ts ps, e.prompt.isSome = true := by
  induction ts with
  | nil => intro ps e he; simp at he
  | cons a ts ih =>
    intro ps e he
    cases ps with
    | nil => simp at he
    | cons p ps =>
      rcases List.mem_cons.mp he with h | h
      · subst h; rfl
      · exact ih ps e h

/-- The slides built from a storyboard have total duration `5 × M`. -/
theorem sum_duration_map_slide_of (sb : List Entry) :
    ((sb.map slide_of).map Slide.duration).sum = 5 * sb.length := by
  induction sb with
  | nil => rfl
  | cons a sb ih =>
    simp only [List.map_cons, List.sum_cons, ih, List.length_cons, slide_of]
    omega

/-- Claim C1, counterexample: as stated, the claim asserts that blank
lines do not consume a timestamp slot, so transcript
`"Hello there\n\nWelcome back\n"` would yield windows `[0,5]` and
`[5,10]`; the code enumerates the lines before filtering, so the second
kept line sits at line index 2 and the produced list differs. -/
theorem C1_counterexample :
    mkSegments "Hello there\n\nWelcome back\n" ≠
      [{ start := 0, «end» := 5, text := "Hello there", prompt := none },
       { start := 5, «end» := 10, text := "Welcome back", prompt := none }] := by
  decide

/-- Claim C1, amended: each non-blank line becomes one segment with
`start = i*5` and `end = (i+1)*5` where `i` is the line's 0-based index
among ALL split lines, so a blank line produces no entry but still
consumes its timestamp slot; windows are non-overlapping multiples of 5
in increasing order, and the example transcript
`"Hello there\n\nWelcome back\n"` yields
`[{start:0,end:5,text:"Hello there"},{start:10,end:15,text:"Welcome back"}]`. -/
theorem C1_transcription_windows :
    (∀ t : String, ((mkSegments t).all fun e =>
        decide (e.«end» = e.start + 5) && decide (e.start % 5 = 0)) = true) ∧
    (∀ t : String, List.Chain' (fun a b => a.«end» ≤ b.start) (mkSegments t)) ∧
    mkSegments "Hello there\n\nWelcome back\n" =
      [{ start := 0, «end» := 5, text := "Hello there", prompt := none },
       { start := 10, «end» := 15, text := "Welcome back", prompt := none }] := by
  refine ⟨?_, ?_, by decide⟩
  · intro t
    rw [List.all_eq_true]
    intro e he
    have h := mem_filterMap_segFn (splitlines t) 0 e he
    simp [h.1, h.2.1]
  · intro t
    exact chain'_filterMap_segFn (splitlines t) 0

/-- Claim C9: every entry the transcription stage writes to
`timestamps_json` has a text field that is already stripped (stripping it
again changes nothing) and non-empty. -/
theorem C9_transcription_text_stripped :
    ∀ t : String, ((mkSegments t).all fun e =>
      decide (pyStrip e.text = e.text) && decide (e.text ≠ "")) = true := by
  intro t
  rw [List.all_eq_true]
  intro e he
  have h := mem_filterMap_segFn (splitlines t) 0 e he
  simp [h.2.2.2.1, h.2.2.2.2.1]

/-- Claim C6: for a non-empty prompt a successful completion call leaves
`script_text` equal to the returned text stripped of leading and trailing
whitespace; for an empty prompt the run action is a no-op with no state
change and no gateway call. -/
theorem C6_script_stage (env : Env) (inp : UserInput) (s : AppState) :
    (inp.prompt = "" →
      runStage .script env inp s =
        { state := s, calls := [], error := none, blocked := false, rendered := none }) ∧
    (∀ raw, inp.prompt ≠ "" → env.gw.chat inp.prompt script_system = Except.ok raw →
      runStage .script env inp s =
        { state := { s with script_text := some (pyStrip raw) }
          calls := [.chat inp.prompt script_system], error := none, blocked := false
          rendered := none }) := by
  constructor
  · intro h
    simp [runStage, step_generate_script, h]
  · intro raw h hok
    simp [runStage, step_generate_script, h, call_openai_chat, hok, Except.map]

/-- Claim C6, witness: the empty-prompt no-op and the successful run at a
concrete prompt and gateway. -/
theorem C6_witness :
    runStage .script env_ok { prompt := "", voice := "alloy" } state_defaults =
      { state := state_defaults, calls := [], error := none, blocked := false
        rendered := none } ∧
    runStage .script env_ok inp0 state_defaults =
      { state := { state_defaults with script_text := some (pyStrip " a prompt ") }
        calls := [.chat inp0.prompt script_system], error := none, blocked := false
        rendered := none } :=
  ⟨(C6_script_stage env_ok { prompt := "", voice := "alloy" } state_defaults).1 rfl,
   (C6_script_stage env_ok inp0 state_defaults).2 " a prompt " (by decide) rfl⟩

/-- Claim C2: for every stage, if a Service Gateway call raised by its
run action fails, the entire session state — in particular the stage's
own artifacts — is left unchanged; for the storyboard stage this means a
failure on any segment's call leaves `storyboard_json` at its prior value
with no partial list committed. -/
theorem C2_service_error_no_mutation (st : Stage) (env : Env) (inp : UserInput)
    (s : AppState) :
    (runStage st env inp s).error.isSome = true → (runStage st env inp s).state = s := by
  cases st <;>
    simp only [runStage, step_generate_script, step_audio_creation, step_transcription,
      step_storyboard, step_metadata, step_video] <;>
    (repeat' split) <;> simp

/-- Claim C2, witness: a storyboard run over one pending segment against
a gateway whose calls all fail leaves the state unchanged. -/
theorem C2_witness : (runStage .storyboard env_fail inp0 s_ts).state = s_ts :=
  C2_service_error_no_mutation .storyboard env_fail inp0 s_ts rfl

/-- Claim C3: a stage run with a missing prerequisite artifact
(`script_text` for audio synthesis and metadata, `audio_path` for
transcription, `timestamps_json` for storyboard, `storyboard_json` or
`audio_path` for video) returns the state unchanged, makes no gateway
call, raises no error, and surfaces the blocking notice. -/
theorem C3_missing_prereq_no_run (env : Env) (inp : UserInput) (s : AppState) :
    (s.script_text = none →
      runStage .audio env inp s =
        { state := s, calls := [], error := none, blocked := true, rendered := none }) ∧
    (s.script_text = none →
      runStage .metadata env inp s =
        { state := s, calls := [], error := none, blocked := true, rendered := none }) ∧
    (s.audio_path = none →
      runStage .transcription env inp s =
        { state := s, calls := [], error := none, blocked := true, rendered := none }) ∧
    (s.timestamps_json = none →
      runStage .storyboard env inp s =
        { state := s, calls := [], error := none, blocked := true, rendered := none }) ∧
    (s.storyboard_json = none ∨ s.audio_path = none →
      runStage .video env inp s =
        { state := s, calls := [], error := none, blocked := true, rendered := none }) := by
  refine ⟨?_, ?_, ?_, ?_, ?_⟩
  · intro h
    simp [runStage, step_audio_creation, h]
  · intro h
    simp [runStage, step_metadata, h]
  · intro h
    simp [runStage, step_transcription, h]
  · intro h
    simp [runStage, step_storyboard, h]
  · intro h
    rcases h with h | h
    · cases hap : s.audio_path <;> simp [runStage, step_video, h, hap]
    · cases hsb : s.storyboard_json <;> simp [runStage, step_video, hsb, h]

/-- Claim C3, witness: at the initial state every prerequisite is absent
and all five gated runs refuse without touching anything. -/
theorem C3_witness :
    runStage .audio env_ok inp0 state_defaults =
      { state := state_defaults, calls := [], error := none, blocked := true
        rendered := none } ∧
    runStage .metadata env_ok inp0 state_defaults =
      { state := state_defaults, calls := [], error := none, blocked := true
        rendered := none } ∧
    runStage .transcription env_ok inp0 state_defaults =
      { state := state_defaults, calls := [], error := none, blocked := true
        rendered := none } ∧
    runStage .storyboard env_ok inp0 state_defaults =
      { state := state_defaults, calls := [], error := none, blocked := true
        rendered := none } ∧
    runStage .video env_ok inp0 state_defaults =
      { state := state_defaults, calls := [], error := none, blocked := true
        rendered := none } :=
  ⟨(C3_missing_prereq_no_run env_ok inp0 state_defaults).1 rfl,
   (C3_missing_prereq_no_run env_ok inp0 state_defaults).2.1 rfl,
   (C3_missing_prereq_no_run env_ok inp0 state_defaults).2.2.1 rfl,
   (C3_missing_prereq_no_run env_ok inp0 state_defaults).2.2.2.1 rfl,
   (C3_missing_prereq_no_run env_ok inp0 state_defaults).2.2.2.2 (Or.inl rfl)⟩

/-- Claim C4: when every per-segment completion call succeeds, the
storyboard stage overwrites `storyboard_json` with exactly one entry per
`timestamps_json` entry, in the same order, each equal to its source
entry augmented with a non-null `prompt` field. -/
theorem C4_storyboard_success (env : Env) (inp : UserInput) (s : AppState)
    (ts : List Entry) (hts : s.timestamps_json = some ts) (hne : ts ≠ [])
    (hok : ∀ e ∈ ts, ∃ r,
      env.gw.chat (storyboard_prompt e.text) storyboard_system = Except.ok r) :
    ∃ sb ps, (runStage .storyboard env inp s).state.storyboard_json = some sb ∧
      ps.length = ts.length ∧ sb = List.zipWith withPrompt ts ps ∧
      sb.length = ts.length ∧ ∀ e ∈ sb, e.prompt.isSome = true := by
  obtain ⟨ps, hlen, h2⟩ := storyboard_loop_ok env.gw ts hok
  refine ⟨List.zipWith withPrompt ts ps, ps, ?_, hlen, rfl, ?_, ?_⟩
  · rcases hl : storyboard_loop env.gw ts with ⟨cs, r2⟩
    rw [hl] at h2
    simp only at h2
    subst h2
    simp [runStage, step_storyboard, hts, hne, hl]
  · rw [List.length_zipWith, hlen]
    exact Nat.min_self _
  · exact fun e he => zipWith_withPrompt_isSome ts ps e he

/-- Claim C4, witness: one pending segment and an always-succeeding
gateway produce a one-entry storyboard. -/
theorem C4_witness :
    ∃ sb ps, (runStage .storyboard env_ok inp0 s_ts).state.storyboard_json = some sb ∧
      ps.length = ([e0] : List Entry).length ∧ sb = List.zipWith withPrompt [e0] ps ∧
      sb.length = ([e0] : List Entry).length ∧ ∀ e ∈ sb, e.prompt.isSome = true :=
  C4_storyboard_success env_ok inp0 s_ts [e0] rfl (by decide)
    (fun _ _ => ⟨" a prompt ", rfl⟩)

/-- Claim C5: with a non-empty M-entry `storyboard_json` and a truthy
`audio_path`, the video stage renders one 5-second slide per storyboard
entry, in order, at 24 fps, so the nominal duration is `5 × M` whatever
the audio resource contains, and `video_path` is overwritten with the
fresh output path. -/
theorem C5_video_duration (env : Env) (inp : UserInput) (s : AppState)
    (sb : List Entry) (p : String) (hsb : s.storyboard_json = some sb)
    (hap : s.audio_path = some p) (hne : sb ≠ []) (hp : p ≠ "") :
    (runStage .video env inp s).rendered =
      some { slides := sb.map slide_of, audio := p, fps := 24 } ∧
    (∀ sl ∈ sb.map slide_of, sl.duration = 5) ∧
    nominal_duration { slides := sb.map slide_of, audio := p, fps := 24 } = 5 * sb.length ∧
    (runStage .video env inp s).state.video_path = some env.fresh_video_path := by
  refine ⟨?_, ?_, ?_, ?_⟩
  · simp [runStage, step_video, hsb, hap, hne, hp]
  · intro sl hsl
    obtain ⟨e, _, rfl⟩ := List.mem_map.mp hsl
    rfl
  · exact sum_duration_map_slide_of sb
  · simp [runStage, step_video, hsb, hap, hne, hp]

/-- Claim C5, witness: a two-entry storyboard renders a 10-second,
24 fps video. -/
theorem C5_witness :
    (runStage .video env_ok inp0 s_vid).rendered =
      some { slides := [e1, e2].map slide_of, audio := "a.wav", fps := 24 } ∧
    (∀ sl ∈ [e1, e2].map slide_of, sl.duration = 5) ∧
    nominal_duration { slides := [e1, e2].map slide_of, audio := "a.wav", fps := 24 } =
      5 * ([e1, e2] : List Entry).length ∧
    (runStage .video env_ok inp0 s_vid).state.video_path =
      some env_ok.fresh_video_path :=
  C5_video_duration env_ok inp0 s_vid [e1, e2] "a.wav" rfl rfl (by decide) (by decide)

/-- Claim C10: video assembly is total over storyboard entries lacking a
prompt key — the run still renders, and any entry without a prompt gets
the default overlay label "Scene". -/
theorem C10_video_default_label (env : Env) (inp : UserInput) (s : AppState)
    (sb : List Entry) (p : String) (hsb : s.storyboard_json = some sb)
    (hap : s.audio_path = some p) (hne : sb ≠ []) (hp : p ≠ "") :
    ∃ v, (runStage .video env inp s).rendered = some v ∧
      v.slides = sb.map slide_of ∧
      ∀ e ∈ sb, e.prompt = none →
        slide_of e = { label := "Scene", duration := 5 } := by
  refine ⟨{ slides := sb.map slide_of, audio := p, fps := 24 }, ?_, rfl, ?_⟩
  · simp [runStage, step_video, hsb, hap, hne, hp]
  · intro e _ hpr
    simp [slide_of, hpr]

/-- Claim C10, witness: a storyboard whose second entry has no prompt
still renders, that entry's slide labelled "Scene". -/
theorem C10_witness :
    ∃ v, (runStage .video env_ok inp0 s_vid).rendered = some v ∧
      v.slides = [e1, e2].map slide_of ∧
      ∀ e ∈ ([e1, e2] : List Entry), e.prompt = none →
        slide_of e = { label := "Scene", duration := 5 } :=
  C10_video_default_label env_ok inp0 s_vid [e1, e2] "a.wav" rfl rfl (by decide) (by decide)

/-- Claim C7: running any stage's run action twice from the same state
with identical user inputs against the same external environment yields
the same session state as running it once — each stage deterministically
overwrites its output artifact rather than appending. -/
theorem C7_idempotent (st : Stage) (env : Env) (inp : UserInput) (s : AppState) :
    (runStage st env inp (runStage st env inp s).state).state =
      (runStage st env inp s).state := by
  cases st
  case script =>
    by_cases hp : inp.prompt = ""
    · simp [runStage, step_generate_script, hp]
    · cases h : call_openai_chat env.gw inp.prompt script_system with
      | ok txt => simp [runStage, step_generate_script, hp, h]
      | error e => simp [runStage, step_generate_script, hp, h]
  case audio =>
    obtain ⟨f1, f2, f3, f4, f5, f6⟩ := s
    cases f1 with
    | none => simp [runStage, step_audio_creation]
    | some txt =>
      by_cases ht : txt = ""
      · simp [runStage, step_audio_creation, ht]
      · cases h : env.gw.tts txt inp.voice with
        | ok b => simp [runStage, step_audio_creation, ht, h]
        | error e => simp [runStage, step_audio_creation, ht, h]
  case transcription =>
    obtain ⟨f1, f2, f3, f4, f5, f6⟩ := s
    cases f2 with
    | none => simp [runStage, step_transcription]
    | some p =>
      by_cases hp : p = ""
      · simp [runStage, step_transcription, hp]
      · cases h : env.gw.whisper (env.fs p) with
        | ok tr => simp [runStage, step_transcription, hp, h]
        | error e => simp [runStage, step_transcription, hp, h]
  case storyboard =>
    obtain ⟨f1, f2, f3, f4, f5, f6⟩ := s
    cases f3 with
    | none => simp [runStage, step_storyboard]
    | some ts =>
      by_cases hts : ts = []
      · simp [runStage, step_storyboard, hts]
      · rcases hl : storyboard_loop env.gw ts with ⟨cs, r2⟩
        cases r2 with
        | ok sb => simp [runStage, step_storyboard, hts, hl]
        | error e => simp [runStage, step_storyboard, hts, hl]
  case metadata =>
    obtain ⟨f1, f2, f3, f4, f5, f6⟩ := s
    cases f1 with
    | none => simp [runStage, step_metadata]
    | some txt =>
      by_cases ht : txt = ""
      · simp [runStage, step_metadata, ht]
      · cases h : call_openai_chat env.gw txt metadata_system with
        | ok m => simp [runStage, step_metadata, ht, h]
        | error e => simp [runStage, step_metadata, ht, h]
  case video =>
    obtain ⟨f1, f2, f3, f4, f5, f6⟩ := s
    cases f4 with
    | none => cases f2 <;> simp [runStage, step_video]
    | some sb =>
      cases f2 with
      | none => simp [runStage, step_video]
      | some p =>
        by_cases hor : sb = [] ∨ p = ""
        · simp [runStage, step_video, hor]
        · simp [runStage, step_video, hor]

/-- Claim C8: all six artifacts are absent at session start; every
stage's run writes at most its own output artifact, leaving the other
five unchanged, and the audio upload path writes only `audio_path`;
nothing is deleted other than by overwrite. -/
theorem C8_frame (st : Stage) (env : Env) (inp : UserInput) (s : AppState)
    (path : String) :
    (state_defaults.script_text = none ∧ state_defaults.audio_path = none ∧
     state_defaults.timestamps_json = none ∧ state_defaults.storyboard_json = none ∧
     state_defaults.metadata_json = none ∧ state_defaults.video_path = none) ∧
    othersUnchanged st s (runStage st env inp s).state ∧
    ((upload_audio path s).script_text = s.script_text ∧
     (upload_audio path s).timestamps_json = s.timestamps_json ∧
     (upload_audio path s).storyboard_json = s.storyboard_json ∧
     (upload_audio path s).metadata_json = s.metadata_json ∧
     (upload_audio path s).video_path = s.video_path) := by
  refine ⟨by simp [state_defaults], ?_, by simp [upload_audio]⟩
  cases st <;>
    simp only [runStage, othersUnchanged, step_generate_script, step_audio_creation,
      step_transcription, step_storyboard, step_metadata, step_video] <;>
    (repeat' split) <;> simp

end VidGen

